import Mathlib

/-!
Verification development for the StarNavigation celestial compass navigation
algorithm (`src/celestial_compass_navigation_algorithm.md`) and the frontend
navigation store (`src/frontend/src/store/navigationStore.ts`).

The navigation loop (`navigate_by_celestial_objects`, `follow_celestial_object`,
`get_visible_celestial_objects`, `select_best_celestial_object`) is embedded
over an abstract numeric kernel `GeoModel` holding the real-valued helper
functions it calls (`haversine_distance`, `move_in_direction`,
`calculate_horizontal_coordinates`, `calculate_compass_direction`, and
`positions_equal`, the last of which is called but not defined in the source).
Control-flow theorems are proved for every kernel and instantiated on concrete
rational kernels for witnesses.  The real-valued formulas of the helper
functions themselves (`haversine_distance`, `move_in_direction`, the horizon
transform) are embedded separately over `ℝ` and analyzed exactly.
-/

namespace StarNav

/-- Geographic position, from the `Position` class of the algorithm document:
latitude and longitude in degrees, altitude in meters (default 0).  The
numeric fields are modelled as rationals in the executable part of the
development. -/
structure Position where
  latitude : ℚ
  longitude : ℚ
  altitude : ℚ := 0
deriving DecidableEq, Repr

/-- Static catalog fields of the `CelestialObject` class.  The document's
dynamic fields (`azimuth`, `altitude`, `is_visible`) are computed per
observer position and time; they are carried separately in `Sighted` instead
of being mutated in place. -/
structure CelestialObject where
  name : String
  right_ascension : ℚ
  declination : ℚ
  magnitude : ℚ
  object_type : String
deriving DecidableEq, Repr

/-- A celestial object together with the horizon coordinates computed for the
current observer position and time (the document's `obj.azimuth` and
`obj.altitude` after `calculate_horizontal_coordinates`). -/
structure Sighted where
  obj : CelestialObject
  azimuth : ℚ
  altitude : ℚ
deriving DecidableEq, Repr

/-- The numeric kernel the navigation loop calls: great-circle distance
(`haversine_distance`), direct projection (`move_in_direction`), the horizon
transform (`calculate_horizontal_coordinates`, as a function of object,
observer position and time), bearing (`calculate_compass_direction`), and the
position comparison `positions_equal` (called with tolerance `0.1` at the top
of `navigate_by_celestial_objects` but not defined in the document).  The
control-flow theorems below hold for every kernel; concrete kernels are used
for witnesses. -/
structure GeoModel where
  dist : Position → Position → ℚ
  move : Position → ℚ → ℚ → Position
  horiz : CelestialObject → Position → ℚ → ℚ × ℚ
  bearing : Position → Position → ℚ
  posEq : Position → Position → ℚ → Bool

/-- Stop reasons of a leg (`reason` strings of the document). -/
inductive StopReason
  | target_reached
  | object_lost
  | closest_approach
deriving DecidableEq, Repr

/-- The `Waypoint` class: a position, the reference object used to reach it
(none only for the final target-reached entry), the stop reason, and the
timestamp. -/
structure Waypoint where
  position : Position
  reference_object : Option CelestialObject
  reason : StopReason
  timestamp : ℚ
deriving DecidableEq, Repr

/-- The `NavigationError` exceptions raised by `navigate_by_celestial_objects`. -/
inductive NavigationError
  | noVisibleObjects
  | noSuitableReference
  | maxIterationsExceeded
deriving DecidableEq, Repr

/-- The `NavigationState` record of the main loop. -/
structure NavigationState where
  current_position : Position
  target_position : Position
  used_objects : List String
  waypoints : List Waypoint
  iteration_count : Nat
deriving DecidableEq, Repr

/-- `get_visible_celestial_objects`: walk the catalog in order, skip objects
whose name is already used, compute horizon coordinates for the rest and keep
those above the horizon (`altitude > 0`) and bright enough
(`magnitude < 6.0`). -/
def get_visible_celestial_objects (g : GeoModel) (catalog : List CelestialObject)
    (observer_pos : Position) (observation_time : ℚ) (used_objects : List String) :
    List Sighted :=
  catalog.filterMap fun obj =>
    if obj.name ∈ used_objects then none
    else
      let az := (g.horiz obj observer_pos observation_time).1
      let alt := (g.horiz obj observer_pos observation_time).2
      if 0 < alt ∧ obj.magnitude < 6 then some ⟨obj, az, alt⟩ else none

/-- Circular distance between two bearings, as computed inside
`select_best_celestial_object`: `diff = |azimuth - target_bearing|`,
`angular_distance = min diff (360 - diff)`. -/
def angularDistance (azimuth target_bearing : ℚ) : ℚ :=
  min |azimuth - target_bearing| (360 - |azimuth - target_bearing|)

/-- The `for` loop of `select_best_celestial_object`: `best` and `minAng` are
the running `best_object` and `min_angular_distance`; a candidate replaces the
best only when its angular distance is strictly smaller. -/
def select_best_aux (target_bearing : ℚ) :
    List Sighted → Option Sighted → ℚ → Option Sighted
  | [], best, _ => best
  | o :: rest, best, minAng =>
    if angularDistance o.azimuth target_bearing < minAng then
      select_best_aux target_bearing rest (some o) (angularDistance o.azimuth target_bearing)
    else
      select_best_aux target_bearing rest best minAng

/-- `select_best_celestial_object`: start from `best_object = None` and
`min_angular_distance = 360.0`. -/
def select_best_celestial_object (target_bearing : ℚ) (visible_objects : List Sighted) :
    Option Sighted :=
  select_best_aux target_bearing visible_objects none 360

/-- The mutable locals of the `while True` loop of `follow_celestial_object`:
`current_pos`, the reference object's current azimuth (mutated in place in the
source), `previous_distance`, `closest_point` and `closest_distance`. -/
structure LegState where
  currentPos : Position
  azimuth : ℚ
  previousDistance : ℚ
  closestPoint : Position
  closestDistance : ℚ
deriving DecidableEq, Repr

/-- One pass of the `while True` body of `follow_celestial_object`:
move one step along the object's last-known azimuth, recompute the object's
horizon coordinates at the new position, then run the four checks of the
source in order.  `Sum.inl` is a `return`, `Sum.inr` continues with the
updated locals. -/
def follow_step (g : GeoModel) (reference_object : CelestialObject) (now : ℚ)
    (target_pos : Position) (step_size_km : ℚ) (s : LegState) :
    (Position × StopReason) ⊕ LegState :=
  let next_pos := g.move s.currentPos s.azimuth step_size_km
  let h := g.horiz reference_object next_pos now
  if h.2 ≤ 0 then .inl (s.currentPos, .object_lost)
  else
    let current_distance := g.dist next_pos target_pos
    if s.previousDistance < current_distance then
      .inl (s.closestPoint, .closest_approach)
    else
      let cp := if current_distance < s.closestDistance then next_pos else s.closestPoint
      let cd := if current_distance < s.closestDistance then current_distance
                else s.closestDistance
      if current_distance < step_size_km then .inl (next_pos, .target_reached)
      else .inr ⟨next_pos, h.1, current_distance, cp, cd⟩

/-- The `while True` loop of `follow_celestial_object`, with a fuel bound
standing in for its unbounded iteration: `none` means the loop has not
returned within `fuel` passes (the source would still be running). -/
def follow_loop (g : GeoModel) (reference_object : CelestialObject) (now : ℚ)
    (target_pos : Position) (step_size_km : ℚ) :
    Nat → LegState → Option (Position × StopReason)
  | 0, _ => none
  | fuel + 1, s =>
    match follow_step g reference_object now target_pos step_size_km s with
    | .inl r => some r
    | .inr s' => follow_loop g reference_object now target_pos step_size_km fuel s'

/-- `follow_celestial_object`: initialize `previous_distance`,
`closest_point` and `closest_distance` from the leg's starting position, then
run the loop.  The reference object enters with the azimuth computed at the
leg's starting position (`ref.azimuth`). -/
def follow_celestial_object (g : GeoModel) (ref : Sighted) (now : ℚ)
    (current_pos target_pos : Position) (step_size_km : ℚ) (fuel : Nat) :
    Option (Position × StopReason) :=
  follow_loop g ref.obj now target_pos step_size_km fuel
    ⟨current_pos, ref.azimuth, g.dist current_pos target_pos, current_pos,
      g.dist current_pos target_pos⟩

/-- Result of running `navigate_by_celestial_objects`: the source either
returns the waypoint list or raises a `NavigationError`. -/
inductive NavOutcome
  | returned (waypoints : List Waypoint)
  | raised (e : NavigationError)
deriving DecidableEq, Repr

/-- Result of one pass of the main `while` body of
`navigate_by_celestial_objects`: return the waypoints, raise an error,
continue with the updated state, or (`hang`) the inner leg loop did not return
within its fuel bound. -/
inductive NavStep
  | done (waypoints : List Waypoint)
  | failed (e : NavigationError)
  | next (s : NavigationState)
  | hang
deriving DecidableEq, Repr

/-- One pass of the main `while` body of `navigate_by_celestial_objects`:
the `positions_equal(current, target, tolerance=0.1)` target test, the bearing
computation, the catalog query, the best-object selection, the leg, and the
state update (append waypoint, mark object used, move, count the
iteration). -/
def navigation_step (g : GeoModel) (catalog : List CelestialObject) (now : ℚ)
    (step_size_km : ℚ) (inner_fuel : Nat) (s : NavigationState) : NavStep :=
  if g.posEq s.current_position s.target_position (1/10) then
    .done (s.waypoints ++ [⟨s.current_position, none, .target_reached, now⟩])
  else
    let target_bearing := g.bearing s.current_position s.target_position
    let visible := get_visible_celestial_objects g catalog s.current_position now
      s.used_objects
    if visible.isEmpty then .failed .noVisibleObjects
    else
      match select_best_celestial_object target_bearing visible with
      | none => .failed .noSuitableReference
      | some best =>
        match follow_celestial_object g best now s.current_position s.target_position
            step_size_km inner_fuel with
        | none => .hang
        | some (final_pos, reason) =>
          .next { current_position := final_pos
                  target_position := s.target_position
                  used_objects := best.obj.name :: s.used_objects
                  waypoints := s.waypoints ++ [⟨final_pos, some best.obj, reason, now⟩]
                  iteration_count := s.iteration_count + 1 }

/-- The main `while iteration_count < max_iterations` loop: the fuel is the
number of iterations left (`max_iterations - iteration_count`); when it runs
out the source raises `MaxIterationsExceeded`.  `none` propagates a
non-returning inner leg loop. -/
def navigation_loop (g : GeoModel) (catalog : List CelestialObject) (now : ℚ)
    (step_size_km : ℚ) (inner_fuel : Nat) :
    Nat → NavigationState → Option NavOutcome
  | 0, _ => some (.raised .maxIterationsExceeded)
  | fuel + 1, s =>
    match navigation_step g catalog now step_size_km inner_fuel s with
    | .done wps => some (.returned wps)
    | .failed e => some (.raised e)
    | .hang => none
    | .next s' => navigation_loop g catalog now step_size_km inner_fuel fuel s'

/-- `navigate_by_celestial_objects`: initialize the navigation state and run
the main loop (`max_iterations` defaults to 100 in the source, `step_size_km`
to 10 inside `follow_celestial_object`). -/
def navigate_by_celestial_objects (g : GeoModel) (catalog : List CelestialObject)
    (now : ℚ) (start_position target_position : Position) (max_iterations : Nat)
    (step_size_km : ℚ) (inner_fuel : Nat) : Option NavOutcome :=
  navigation_loop g catalog now step_size_km inner_fuel max_iterations
    ⟨start_position, target_position, [], [], 0⟩

/-! ### Concrete numeric kernels

Small rational kernels used to exercise the navigation loop on concrete runs:
witnesses and counterexamples instantiate the generic control-flow theorems on
them. -/

/-- A kernel on a line: the latitude is a one-dimensional coordinate, distance
is the coordinate gap, moving advances the coordinate by the step, every
object stands at azimuth 0 and altitude 10, and `positions_equal` compares
both coordinates within the tolerance. -/
def lineModel : GeoModel where
  dist p q := |q.latitude - p.latitude|
  move p _ d := ⟨p.latitude + d, p.longitude, p.altitude⟩
  horiz _ _ _ := (0, 10)
  bearing _ _ := 0
  posEq p q tol := decide (|q.latitude - p.latitude| < tol ∧ |q.longitude - p.longitude| < tol)

/-- A catalog entry. -/
def starA : CelestialObject := ⟨"Polaris", 2, 89, 2, "star"⟩

/-- A kernel whose distance-to-target first falls from 100 to 50 and then
rises to 60, producing a `closest_approach` leg. -/
def vModel : GeoModel where
  dist p _ := if p.latitude = 0 then 100 else if p.latitude = 10 then 50 else 60
  move p _ d := ⟨p.latitude + d, p.longitude, p.altitude⟩
  horiz _ _ _ := (0, 10)
  bearing _ _ := 0
  posEq _ _ _ := false

/-- A kernel on which a leg makes no progress: moving returns the same
position, the distance to target is the constant 100 and the object never
sets, so none of the three stop conditions of `follow_celestial_object` ever
fires. -/
def stuckModel : GeoModel where
  dist _ _ := 100
  move p _ _ := p
  horiz _ _ _ := (0, 10)
  bearing _ _ := 0
  posEq _ _ _ := false

/-- A sighted candidate at azimuth 10, magnitude 5: angular distance 10 from
bearing 0. -/
def sightFirst : Sighted := ⟨⟨"Bellatrix", 5, 6, 5, "star"⟩, 10, 20⟩

/-- A sighted candidate at azimuth 350, magnitude 1: also angular distance 10
from bearing 0 (wraparound), brighter than `sightFirst` and earlier in catalog
name order. -/
def sightSecond : Sighted := ⟨⟨"Altair", 19, 8, 1, "star"⟩, 350, 20⟩

/-- Two waypoints do not share a (non-null) reference-object name. -/
def distinctRefNames (w₁ w₂ : Waypoint) : Prop :=
  ∀ o₁ o₂, w₁.reference_object = some o₁ → w₂.reference_object = some o₂ →
    o₁.name ≠ o₂.name

/-! ### Frontend navigation store (`src/frontend/src/store/navigationStore.ts`) -/

/-- Frontend `Position` (`types.ts`): latitude and longitude in degrees. -/
structure FPosition where
  latitude : ℚ
  longitude : ℚ
deriving DecidableEq, Repr

/-- Frontend `Waypoint` (`types.ts`). -/
structure FWaypoint where
  position : FPosition
  reference_object : Option CelestialObject
  reason : StopReason
  timestamp : String
  distance_to_target : Option ℚ
deriving DecidableEq, Repr

/-- A backend `RouteResult` as the store reads it: the store inspects only the
`id` field (`setRoutes` selects `routes[0].id`); the remaining payload is
opaque to it. -/
structure FRouteResult where
  id : String
deriving DecidableEq, Repr

/-- The state fields of the Zustand navigation store. -/
structure StoreState where
  startLocation : Option FPosition
  targetLocation : Option FPosition
  startLocationName : String
  targetLocationName : String
  routes : List FRouteResult
  selectedRouteId : Option String
  isCalculating : Bool
  error : Option String
  selectedWaypoint : Option FWaypoint
  sidebarOpen : Bool
  mapCenter : FPosition
  mapZoom : ℚ
  selectedTime : Option ℚ
  useCurrentTime : Bool
  prioritizeMajor : Bool
  planetsOnly : Bool
  maxRoutes : ℚ
  isSimulating : Bool
  simulationProgress : ℚ
  simulationSpeed : ℚ
  currentSimulationPosition : Option FPosition
deriving DecidableEq, Repr

/-- `DEFAULT_CENTER` (Berlin). -/
def DEFAULT_CENTER : FPosition := ⟨52.52, 13.405⟩

/-- The initial state of the store. -/
def initialStoreState : StoreState where
  startLocation := none
  targetLocation := none
  startLocationName := ""
  targetLocationName := ""
  routes := []
  selectedRouteId := none
  isCalculating := false
  error := none
  selectedWaypoint := none
  sidebarOpen := true
  mapCenter := DEFAULT_CENTER
  mapZoom := 5
  selectedTime := none
  useCurrentTime := true
  prioritizeMajor := false
  planetsOnly := false
  maxRoutes := 1
  isSimulating := false
  simulationProgress := 0
  simulationSpeed := 1
  currentSimulationPosition := none

/-- The store's actions, one constructor per action of the TypeScript
interface. -/
inductive StoreAction
  | setStartLocation (location : Option FPosition) (name : Option String)
  | setTargetLocation (location : Option FPosition) (name : Option String)
  | swapLocations
  | setRoutes (routes : List FRouteResult)
  | setSelectedRouteId (id : Option String)
  | setIsCalculating (b : Bool)
  | setError (e : Option String)
  | setSelectedWaypoint (w : Option FWaypoint)
  | setSidebarOpen (b : Bool)
  | setMapCenter (c : FPosition)
  | setMapZoom (z : ℚ)
  | setSelectedTime (t : Option ℚ)
  | setUseCurrentTime (b : Bool)
  | setPrioritizeMajor (b : Bool)
  | setPlanetsOnly (b : Bool)
  | setMaxRoutes (n : ℚ)
  | setIsSimulating (b : Bool)
  | setSimulationProgress (p : ℚ)
  | setSimulationSpeed (sp : ℚ)
  | setCurrentSimulationPosition (p : Option FPosition)
  | resetSimulation
  | clearRoute
  | reset

/-- The default location name `name || (location ? fmt(location) : '')`:
a missing or empty `name` falls back to the formatted coordinates (JS
truthiness makes the empty string fall through `||`). -/
def locationName (fmt : FPosition → String) (location : Option FPosition)
    (name : Option String) : String :=
  let dflt := match location with
    | some l => fmt l
    | none => ""
  match name with
  | some n => if n = "" then dflt else n
  | none => dflt

/-- One store action applied to a state, mirroring the `set` calls of the
TypeScript store.  `fmt` stands for the coordinate formatting
`latitude.toFixed(4) + ", " + longitude.toFixed(4)` used for default
location names. -/
def applyAction (fmt : FPosition → String) (s : StoreState) : StoreAction → StoreState
  | .setStartLocation location name =>
    { s with startLocation := location,
             startLocationName := locationName fmt location name }
  | .setTargetLocation location name =>
    { s with targetLocation := location,
             targetLocationName := locationName fmt location name }
  | .swapLocations =>
    { s with startLocation := s.targetLocation
             targetLocation := s.startLocation
             startLocationName := s.targetLocationName
             targetLocationName := s.startLocationName
             routes := []
             selectedRouteId := none }
  | .setRoutes routes =>
    { s with routes := routes
             selectedRouteId := (routes.head?).map (fun r => r.id)
             error := none }
  | .setSelectedRouteId id => { s with selectedRouteId := id }
  | .setIsCalculating b => { s with isCalculating := b }
  | .setError e => { s with error := e, isCalculating := false }
  | .setSelectedWaypoint w => { s with selectedWaypoint := w }
  | .setSidebarOpen b => { s with sidebarOpen := b }
  | .setMapCenter c => { s with mapCenter := c }
  | .setMapZoom z => { s with mapZoom := z }
  | .setSelectedTime t => { s with selectedTime := t }
  | .setUseCurrentTime b =>
    { s with useCurrentTime := b
             selectedTime := if b then none else s.selectedTime }
  | .setPrioritizeMajor b =>
    { s with prioritizeMajor := b
             planetsOnly := if b then false else s.planetsOnly }
  | .setPlanetsOnly b =>
    { s with planetsOnly := b
             prioritizeMajor := if b then false else s.prioritizeMajor }
  | .setMaxRoutes n => { s with maxRoutes := n }
  | .setIsSimulating b => { s with isSimulating := b }
  | .setSimulationProgress p => { s with simulationProgress := p }
  | .setSimulationSpeed sp => { s with simulationSpeed := sp }
  | .setCurrentSimulationPosition p => { s with currentSimulationPosition := p }
  | .resetSimulation =>
    { s with isSimulating := false
             simulationProgress := 0
             currentSimulationPosition := none }
  | .clearRoute =>
    { s with isSimulating := false
             simulationProgress := 0
             currentSimulationPosition := none
             routes := []
             selectedRouteId := none
             selectedWaypoint := none
             error := none }
  | .reset =>
    { s with startLocation := none
             targetLocation := none
             startLocationName := ""
             targetLocationName := ""
             routes := []
             selectedRouteId := none
             isCalculating := false
             error := none
             selectedWaypoint := none
             mapCenter := DEFAULT_CENTER
             mapZoom := 5
             selectedTime := none
             useCurrentTime := true
             prioritizeMajor := false
             planetsOnly := false
             maxRoutes := 1
             isSimulating := false
             simulationProgress := 0
             simulationSpeed := 1
             currentSimulationPosition := none }

/-- Fold a sequence of store actions starting from the initial state. -/
def runStore (fmt : FPosition → String) (acts : List StoreAction) : StoreState :=
  acts.foldl (applyAction fmt) initialStoreState

/-! ### Real-valued geodesy and horizon transform

The helper-function formulas of the document
(`haversine_distance`, `move_in_direction`,
`calculate_horizontal_coordinates`), embedded over `ℝ` with exact
trigonometry.  The horizon transform is additionally parameterized over the
sine/cosine implementation, so a rounded (floating-point) implementation can
be substituted for the exact one. -/

noncomputable section

/-- Degrees to radians: the `radians` conversion used by the helper
functions. -/
def radiansR (x : ℝ) : ℝ := x * (Real.pi / 180)

/-- Radians to degrees: the `degrees` conversion used by the helper
functions. -/
def degreesR (x : ℝ) : ℝ := x * (180 / Real.pi)

/-- The two-argument arctangent `atan2(y, x)`, as the argument of the complex
number `x + y i`: the standard `atan2` convention (range `(-π, π]`, zero at
the origin). -/
def atan2 (y x : ℝ) : ℝ := Complex.arg (x + y * Complex.I)

/-- Real-valued `Position` for the exact analysis of the geodesy formulas. -/
structure PositionR where
  latitude : ℝ
  longitude : ℝ
  altitude : ℝ

/-- The intermediate value `a` of `haversine_distance`:
`sin(dlat/2)^2 + cos(lat1) * cos(lat2) * sin(dlon/2)^2`. -/
def hav_a (pos1 pos2 : PositionR) : ℝ :=
  Real.sin ((radiansR pos2.latitude - radiansR pos1.latitude) / 2) ^ 2 +
    Real.cos (radiansR pos1.latitude) * Real.cos (radiansR pos2.latitude) *
      Real.sin ((radiansR pos2.longitude - radiansR pos1.longitude) / 2) ^ 2

/-- `haversine_distance`: `R * c` with `R = 6371` km and
`c = 2 * atan2(sqrt(a), sqrt(1-a))`. -/
def haversine_distance (pos1 pos2 : PositionR) : ℝ :=
  6371 * (2 * atan2 (Real.sqrt (hav_a pos1 pos2)) (Real.sqrt (1 - hav_a pos1 pos2)))

/-- The new latitude (radians) of `move_in_direction`:
`asin(sin(lat1) * cos(d/R) + cos(lat1) * sin(d/R) * cos(bearing))`. -/
def moveLat (position : PositionR) (bearing_degrees distance_km : ℝ) : ℝ :=
  Real.arcsin (Real.sin (radiansR position.latitude) * Real.cos (distance_km / 6371) +
    Real.cos (radiansR position.latitude) * Real.sin (distance_km / 6371) *
      Real.cos (radiansR bearing_degrees))

/-- The new longitude (radians) of `move_in_direction`:
`lon1 + atan2(sin(bearing) * sin(d/R) * cos(lat1), cos(d/R) - sin(lat1) * sin(lat2))`. -/
def moveLon (position : PositionR) (bearing_degrees distance_km : ℝ) : ℝ :=
  radiansR position.longitude + atan2
    (Real.sin (radiansR bearing_degrees) * Real.sin (distance_km / 6371) *
      Real.cos (radiansR position.latitude))
    (Real.cos (distance_km / 6371) -
      Real.sin (radiansR position.latitude) *
        Real.sin (moveLat position bearing_degrees distance_km))

/-- `move_in_direction`: the projected position, converted back to degrees,
altitude carried over. -/
def move_in_direction (position : PositionR) (bearing_degrees distance_km : ℝ) :
    PositionR :=
  ⟨degreesR (moveLat position bearing_degrees distance_km),
    degreesR (moveLon position bearing_degrees distance_km), position.altitude⟩

/-- The sine and cosine the horizon transform calls, abstracted: substituting
a rounded implementation for the exact one models floating evaluation. -/
structure RoundedTrig where
  sin : ℝ → ℝ
  cos : ℝ → ℝ

/-- The exact trigonometric functions. -/
def exactTrig : RoundedTrig := ⟨Real.sin, Real.cos⟩

/-- A rounding-sized perturbation of the exact functions: sine exact, cosine
off by `2 ^ (-40)`. -/
def roundedTrigExample : RoundedTrig := ⟨Real.sin, fun x => Real.cos x + 1 / 2 ^ 40⟩

/-- The value `sin_alt` of `calculate_horizontal_coordinates`, which the
source passes to `asin` with no clamp:
`sin(dec) * sin(lat) + cos(dec) * cos(lat) * cos(ha)`, with hour angle
`ha = (lst - right_ascension) * 15` degrees. -/
def sin_alt_arg (t : RoundedTrig) (lst right_ascension declination latitude : ℝ) : ℝ :=
  t.sin (radiansR declination) * t.sin (radiansR latitude) +
    t.cos (radiansR declination) * t.cos (radiansR latitude) *
      t.cos (radiansR ((lst - right_ascension) * 15))

/-- The raw value `cos_az` of `calculate_horizontal_coordinates` before the
clamp: `(sin(dec) - sin(lat) * sin_alt) / (cos(lat) * cos(asin(sin_alt)))`. -/
def cos_az_raw (t : RoundedTrig) (lst right_ascension declination latitude : ℝ) : ℝ :=
  (t.sin (radiansR declination) -
      t.sin (radiansR latitude) * sin_alt_arg t lst right_ascension declination latitude) /
    (t.cos (radiansR latitude) *
      Real.cos (Real.arcsin (sin_alt_arg t lst right_ascension declination latitude)))

/-- The clamp `max(-1.0, min(1.0, cos_az))` the source applies to `cos_az`
(and to no other inverse-trig argument) before `acos`. -/
def cos_az_clamped (t : RoundedTrig) (lst right_ascension declination latitude : ℝ) : ℝ :=
  max (-1) (min 1 (cos_az_raw t lst right_ascension declination latitude))

/-- `calculate_horizontal_coordinates`, returning (azimuth, altitude) in
degrees, over a given sine/cosine implementation.  The local sidereal time
`lst` is supplied by the caller (`calculate_local_sidereal_time` is not
defined in the document).  As in the source, `asin` receives the unclamped
`sin_alt`, `acos` the clamped `cos_az`, and the azimuth quadrant is resolved
by the sign of `sin_az`. -/
def calculate_horizontal_coordinates (t : RoundedTrig)
    (lst right_ascension declination latitude : ℝ) : ℝ × ℝ :=
  let sin_alt := sin_alt_arg t lst right_ascension declination latitude
  let altitude := degreesR (Real.arcsin sin_alt)
  let azimuth :=
    degreesR (Real.arccos (cos_az_clamped t lst right_ascension declination latitude))
  let sin_az := -t.cos (radiansR declination) *
      t.sin (radiansR ((lst - right_ascension) * 15)) / Real.cos (radiansR altitude)
  (if sin_az < 0 then 360 - azimuth else azimuth, altitude)

end

/-! ## Theorems -/

/-- C1 (amended): the target test of `navigate_by_celestial_objects` is
`positions_equal(current, target, 0.1)` with the constant tolerance argument
`0.1`, independent of the initial direct distance: a step appends the final
null-reference `target_reached` waypoint exactly when that test holds; and
`follow_celestial_object` — under a visible object and non-receding distance —
returns `target_reached` exactly when the new distance to target drops below
`step_size_km`.  No tolerance `min(total_direct_distance * 0.05, 5.0)` is
computed anywhere. -/
theorem C1_constant_tolerance (g : GeoModel) (catalog : List CelestialObject)
    (now step_size_km : ℚ) (inner_fuel : Nat) (s : NavigationState)
    (reference_object : CelestialObject) (target_pos : Position) (ls : LegState) :
    (g.posEq s.current_position s.target_position (1/10) = true →
      navigation_step g catalog now step_size_km inner_fuel s =
        .done (s.waypoints ++ [⟨s.current_position, none, .target_reached, now⟩]))
    ∧ (g.posEq s.current_position s.target_position (1/10) = false →
      ∀ wps, navigation_step g catalog now step_size_km inner_fuel s ≠ .done wps)
    ∧ (0 < (g.horiz reference_object (g.move ls.currentPos ls.azimuth step_size_km) now).2 →
      ¬ ls.previousDistance < g.dist (g.move ls.currentPos ls.azimuth step_size_km) target_pos →
      (follow_step g reference_object now target_pos step_size_km ls =
          .inl (g.move ls.currentPos ls.azimuth step_size_km, .target_reached) ↔
        g.dist (g.move ls.currentPos ls.azimuth step_size_km) target_pos < step_size_km)) := by
  refine ⟨fun hpe => ?_, fun hpe wps => ?_, fun halt hrec => ?_⟩
  · unfold navigation_step
    rw [hpe]
    simp
  · unfold navigation_step
    rw [hpe]
    simp only [Bool.false_eq_true, if_false]
    split
    · simp
    · split
      · simp
      · split <;> simp
  · simp only [follow_step]
    rw [if_neg (not_le.mpr halt), if_neg hrec]
    by_cases hlt : g.dist (g.move ls.currentPos ls.azimuth step_size_km) target_pos <
        step_size_km
    · simp [hlt]
    · simp [hlt]

/-- C1 counterexample: a concrete run on `lineModel` whose initial direct
distance is 51, so the claimed dynamic tolerance is
`min(51 * 0.05, 5) = 2.55`.  The first leg ends at distance 1 from the target
— inside that tolerance — yet the next planner iteration does not append a
final `target_reached` waypoint: it fails with `noVisibleObjects`, because the
code's target test `positions_equal(current, target, 0.1)` does not hold. -/
theorem C1_counterexample :
    lineModel.dist ⟨50,0,0⟩ ⟨51,0,0⟩ ≤
        min (lineModel.dist ⟨0,0,0⟩ ⟨51,0,0⟩ * (5/100)) 5
    ∧ navigation_step lineModel [starA] 0 10 8 ⟨⟨0,0,0⟩, ⟨51,0,0⟩, [], [], 0⟩ =
        .next ⟨⟨50,0,0⟩, ⟨51,0,0⟩, ["Polaris"],
          [⟨⟨50,0,0⟩, some starA, .target_reached, 0⟩], 1⟩
    ∧ navigation_step lineModel [starA] 0 10 8
        ⟨⟨50,0,0⟩, ⟨51,0,0⟩, ["Polaris"],
          [⟨⟨50,0,0⟩, some starA, .target_reached, 0⟩], 1⟩ = .failed .noVisibleObjects
    ∧ navigate_by_celestial_objects lineModel [starA] 0 ⟨0,0,0⟩ ⟨51,0,0⟩ 100 10 8 =
        some (.raised .noVisibleObjects) := by
  have hv1 : get_visible_celestial_objects lineModel [starA] ⟨0,0,0⟩ 0 [] =
      [⟨starA,0,10⟩] := by
    norm_num [get_visible_celestial_objects, lineModel, starA, List.filterMap_cons]
  have hv2 : get_visible_celestial_objects lineModel [starA] ⟨50,0,0⟩ 0 ["Polaris"] = [] := by
    norm_num [get_visible_celestial_objects, lineModel, starA, List.filterMap_cons]
  have hs1 : select_best_celestial_object (lineModel.bearing ⟨0,0,0⟩ ⟨51,0,0⟩)
      [⟨starA,0,10⟩] = some ⟨starA,0,10⟩ := by
    norm_num [select_best_celestial_object, select_best_aux, angularDistance, lineModel]
  have hf1 : follow_celestial_object lineModel ⟨starA,0,10⟩ 0 ⟨0,0,0⟩ ⟨51,0,0⟩ 10 8 =
      some (⟨50,0,0⟩, .target_reached) := by
    norm_num [follow_celestial_object, follow_loop, follow_step, lineModel]
  have hp1 : lineModel.posEq ⟨0,0,0⟩ ⟨51,0,0⟩ (1/10) = false := by norm_num [lineModel]
  have hp2 : lineModel.posEq ⟨50,0,0⟩ ⟨51,0,0⟩ (1/10) = false := by norm_num [lineModel]
  have hstep1 : navigation_step lineModel [starA] 0 10 8 ⟨⟨0,0,0⟩, ⟨51,0,0⟩, [], [], 0⟩ =
      .next ⟨⟨50,0,0⟩, ⟨51,0,0⟩, ["Polaris"],
        [⟨⟨50,0,0⟩, some starA, .target_reached, 0⟩], 1⟩ := by
    unfold navigation_step
    rw [hp1]
    simp only [Bool.false_eq_true, if_false, hv1, hs1, hf1]
    rfl
  have hstep2 : navigation_step lineModel [starA] 0 10 8
      ⟨⟨50,0,0⟩, ⟨51,0,0⟩, ["Polaris"],
        [⟨⟨50,0,0⟩, some starA, .target_reached, 0⟩], 1⟩ = .failed .noVisibleObjects := by
    unfold navigation_step
    rw [hp2]
    simp only [Bool.false_eq_true, if_false, hv2]
    rfl
  refine ⟨by norm_num [lineModel], hstep1, hstep2, ?_⟩
  show navigation_loop lineModel [starA] 0 10 8 100 ⟨⟨0,0,0⟩, ⟨51,0,0⟩, [], [], 0⟩ =
    some (.raised .noVisibleObjects)
  simp only [navigation_loop, hstep1, hstep2]

/-- C2: determinism of the route planner — with the catalog snapshot, the
observation time (standing for every `datetime.now()` read of the source) and
the remaining parameters fixed, two runs of `navigate_by_celestial_objects`
produce identical results: the same waypoint positions, reference objects,
stop reasons and timestamps in the same order, since the embedded planner is a
pure function of those inputs. -/
theorem C2_determinism : ∀ (g : GeoModel) (catalog₁ catalog₂ : List CelestialObject)
    (now₁ now₂ : ℚ) (start₁ start₂ target₁ target₂ : Position) (max_iterations : Nat)
    (step_size_km : ℚ) (inner_fuel : Nat),
    catalog₁ = catalog₂ → now₁ = now₂ → start₁ = start₂ → target₁ = target₂ →
    navigate_by_celestial_objects g catalog₁ now₁ start₁ target₁ max_iterations
      step_size_km inner_fuel =
    navigate_by_celestial_objects g catalog₂ now₂ start₂ target₂ max_iterations
      step_size_km inner_fuel := by
  intros
  subst_vars
  rfl

/-- C2 witness: two runs on the concrete line kernel agree. -/
theorem C2_witness :
    navigate_by_celestial_objects lineModel [starA] 0 ⟨0,0,0⟩ ⟨50,0,0⟩ 100 10 8 =
      navigate_by_celestial_objects lineModel [starA] 0 ⟨0,0,0⟩ ⟨50,0,0⟩ 100 10 8 :=
  C2_determinism lineModel [starA] [starA] 0 0 ⟨0,0,0⟩ ⟨0,0,0⟩ ⟨50,0,0⟩ ⟨50,0,0⟩
    100 10 8 rfl rfl rfl rfl

/-- A `closest_approach` return of one loop pass carries the tracked closest
point. -/
lemma follow_step_closest_eq (g : GeoModel) (reference_object : CelestialObject)
    (now : ℚ) (target_pos : Position) (step_size_km : ℚ) (s : LegState) (p : Position) :
    follow_step g reference_object now target_pos step_size_km s =
      .inl (p, .closest_approach) → p = s.closestPoint := by
  intro h
  simp only [follow_step] at h
  split at h
  · simp_all
  · split at h
    · simp_all
    · split at h
      · simp_all
      · simp_all

/-- A continuing loop pass preserves the closest-point invariant and never
increases the tracked closest distance. -/
lemma follow_step_inr_closest (g : GeoModel) (reference_object : CelestialObject)
    (now : ℚ) (target_pos : Position) (step_size_km : ℚ) (s s' : LegState)
    (hinv : s.closestDistance = g.dist s.closestPoint target_pos) :
    follow_step g reference_object now target_pos step_size_km s = .inr s' →
    s'.closestDistance = g.dist s'.closestPoint target_pos ∧
      s'.closestDistance ≤ s.closestDistance := by
  intro h
  simp only [follow_step] at h
  split at h
  · simp_all
  · split at h
    · simp_all
    · split at h
      · simp_all
      · obtain rfl := (Sum.inr.inj h).symm
        constructor
        · split <;> simp_all
        · split <;> simp_all
          exact le_of_lt (by assumption)

/-- Loop invariant behind C3: a `closest_approach` result is no farther from
the target than the tracked closest distance at entry. -/
lemma follow_loop_closest_le (g : GeoModel) (reference_object : CelestialObject)
    (now : ℚ) (target_pos : Position) (step_size_km : ℚ) :
    ∀ (fuel : Nat) (s : LegState) (p : Position),
      s.closestDistance = g.dist s.closestPoint target_pos →
      follow_loop g reference_object now target_pos step_size_km fuel s =
        some (p, .closest_approach) →
      g.dist p target_pos ≤ s.closestDistance := by
  intro fuel
  induction fuel with
  | zero => intro s p _ h; simp [follow_loop] at h
  | succ n ih =>
    intro s p hinv h
    rw [follow_loop] at h
    rcases hfs : follow_step g reference_object now target_pos step_size_km s with r | s'
    · rw [hfs] at h
      have hr : r = (p, StopReason.closest_approach) := by
        simpa using h
      rw [hr] at hfs
      have hp := follow_step_closest_eq g reference_object now target_pos step_size_km s p hfs
      rw [hp, hinv]
    · rw [hfs] at h
      obtain ⟨h1, h2⟩ := follow_step_inr_closest g reference_object now target_pos
        step_size_km s s' hinv hfs
      exact le_trans (ih s' p h1 h) h2

/-- C3: when `follow_celestial_object` stops with reason `closest_approach`,
the returned position is the tracked minimum-distance position, and its
distance to the target does not exceed the distance from the leg's starting
position to the target. -/
theorem C3_closest_approach_not_farther (g : GeoModel) (ref : Sighted) (now : ℚ)
    (current_pos target_pos : Position) (step_size_km : ℚ) (fuel : Nat) (p : Position)
    (h : follow_celestial_object g ref now current_pos target_pos step_size_km fuel =
      some (p, .closest_approach)) :
    g.dist p target_pos ≤ g.dist current_pos target_pos :=
  follow_loop_closest_le g ref.obj now target_pos step_size_km fuel _ p rfl h

/-- C3 witness: a concrete leg on `vModel` (distances 100, 50, 60) stops with
`closest_approach` at the tracked minimum, which is closer than the start. -/
theorem C3_witness :
    follow_celestial_object vModel ⟨starA, 0, 10⟩ 0 ⟨0,0,0⟩ ⟨200,0,0⟩ 10 5 =
      some (⟨10,0,0⟩, .closest_approach)
    ∧ vModel.dist ⟨10,0,0⟩ ⟨200,0,0⟩ ≤ vModel.dist ⟨0,0,0⟩ ⟨200,0,0⟩ := by
  have hrun : follow_celestial_object vModel ⟨starA, 0, 10⟩ 0 ⟨0,0,0⟩ ⟨200,0,0⟩ 10 5 =
      some (⟨10,0,0⟩, .closest_approach) := by
    norm_num [follow_celestial_object, follow_loop, follow_step, vModel]
  exact ⟨hrun, C3_closest_approach_not_farther vModel ⟨starA, 0, 10⟩ 0 ⟨0,0,0⟩ ⟨200,0,0⟩
    10 5 ⟨10,0,0⟩ hrun⟩

/-- C4 counterexample: two visible candidates with equal angular separation
from the target bearing; the second is brighter and earlier in name order, yet
`select_best_celestial_object` keeps the first (strict `<` in the loop, so a
tie never replaces the running best) — not the brighter one the claim
requires. -/
theorem C4_counterexample :
    angularDistance sightFirst.azimuth 0 = angularDistance sightSecond.azimuth 0
    ∧ sightSecond.obj.magnitude < sightFirst.obj.magnitude
    ∧ sightSecond.obj.name < sightFirst.obj.name
    ∧ select_best_celestial_object 0 [sightFirst, sightSecond] = some sightFirst := by
  refine ⟨by norm_num [angularDistance, sightFirst, sightSecond], ?_, ?_, ?_⟩
  · norm_num [sightFirst, sightSecond]
  · simp only [sightFirst, sightSecond]
    simp
    decide
  · norm_num [select_best_celestial_object, select_best_aux, angularDistance,
      sightFirst, sightSecond]

/-- Specification of the `select_best_celestial_object` accumulator loop. -/
lemma select_best_aux_spec (b : ℚ) : ∀ (l : List Sighted) (best : Option Sighted)
    (minAng : ℚ) (o : Sighted), select_best_aux b l best minAng = some o →
    (best = some o ∧ ∀ x ∈ l, minAng ≤ angularDistance x.azimuth b) ∨
    (∃ l₁ l₂, l = l₁ ++ o :: l₂ ∧ angularDistance o.azimuth b < minAng ∧
      (∀ x ∈ l₁, angularDistance o.azimuth b < angularDistance x.azimuth b) ∧
      (∀ x ∈ l₂, angularDistance o.azimuth b ≤ angularDistance x.azimuth b)) := by
  intro l
  induction l with
  | nil =>
    intro best minAng o h
    left
    exact ⟨h, by simp⟩
  | cons hd tl ih =>
    intro best minAng o h
    rw [select_best_aux] at h
    by_cases hlt : angularDistance hd.azimuth b < minAng
    · rw [if_pos hlt] at h
      rcases ih (some hd) (angularDistance hd.azimuth b) o h with ⟨h1, h2⟩ | ⟨l₁, l₂, he, ha, hs, hw⟩
      · obtain rfl : hd = o := by simpa using h1
        right
        exact ⟨[], tl, rfl, hlt, by simp, h2⟩
      · right
        refine ⟨hd :: l₁, l₂, by rw [he]; rfl, lt_trans ha hlt, ?_, hw⟩
        intro x hx
        rcases List.mem_cons.mp hx with rfl | hx
        · exact ha
        · exact hs x hx
    · rw [if_neg hlt] at h
      rcases ih best minAng o h with ⟨h1, h2⟩ | ⟨l₁, l₂, he, ha, hs, hw⟩
      · left
        refine ⟨h1, ?_⟩
        intro x hx
        rcases List.mem_cons.mp hx with rfl | hx
        · exact not_lt.mp hlt
        · exact h2 x hx
      · right
        refine ⟨hd :: l₁, l₂, by rw [he]; rfl, ha, ?_, hw⟩
        intro x hx
        rcases List.mem_cons.mp hx with rfl | hx
        · exact lt_of_lt_of_le ha (not_lt.mp hlt)
        · exact hs x hx

/-- C4 (amended): the selected object is the first element of the visible list
attaining the minimum angular separation — every earlier candidate has
strictly larger separation, every later one at least as large.  Equal-
separation ties are therefore broken by list (catalog) position, not by
magnitude or name. -/
theorem C4_first_minimum (b : ℚ) (l : List Sighted) (o : Sighted)
    (h : select_best_celestial_object b l = some o) :
    ∃ l₁ l₂, l = l₁ ++ o :: l₂ ∧
      (∀ x ∈ l₁, angularDistance o.azimuth b < angularDistance x.azimuth b) ∧
      (∀ x ∈ l₂, angularDistance o.azimuth b ≤ angularDistance x.azimuth b) := by
  rcases select_best_aux_spec b l none 360 o h with ⟨h1, _⟩ | ⟨l₁, l₂, he, _, hs, hw⟩
  · exact absurd h1 (by simp)
  · exact ⟨l₁, l₂, he, hs, hw⟩

/-- C4 witness: the characterization applied to a concrete selection. -/
theorem C4_witness :
    select_best_celestial_object 0 [sightFirst, sightSecond] = some sightFirst
    ∧ ∃ l₁ l₂, ([sightFirst, sightSecond] : List Sighted) = l₁ ++ sightFirst :: l₂ ∧
      (∀ x ∈ l₁, angularDistance sightFirst.azimuth 0 < angularDistance x.azimuth 0) ∧
      (∀ x ∈ l₂, angularDistance sightFirst.azimuth 0 ≤ angularDistance x.azimuth 0) := by
  have hsel : select_best_celestial_object 0 [sightFirst, sightSecond] = some sightFirst := by
    norm_num [select_best_celestial_object, select_best_aux, angularDistance,
      sightFirst, sightSecond]
  exact ⟨hsel, C4_first_minimum 0 [sightFirst, sightSecond] sightFirst hsel⟩

/-- Members of the catalog-filter output are not in the exclusion set. -/
lemma mem_get_visible_not_used {g : GeoModel} {catalog : List CelestialObject}
    {pos : Position} {t : ℚ} {used : List String} {x : Sighted}
    (hx : x ∈ get_visible_celestial_objects g catalog pos t used) :
    x.obj.name ∉ used := by
  simp only [get_visible_celestial_objects, List.mem_filterMap] at hx
  obtain ⟨obj, _, hf⟩ := hx
  by_cases hmem : obj.name ∈ used
  · simp [hmem] at hf
  · rw [if_neg hmem] at hf
    split at hf
    · obtain rfl : (⟨obj, _, _⟩ : Sighted) = x := Option.some.inj hf
      exact hmem
    · exact absurd hf (by simp)

/-- The selection loop returns its accumulator or a list member. -/
lemma select_best_aux_mem (b : ℚ) : ∀ (l : List Sighted) (best : Option Sighted)
    (minAng : ℚ) (o : Sighted),
    select_best_aux b l best minAng = some o → best = some o ∨ o ∈ l := by
  intro l
  induction l with
  | nil => intro best minAng o h; exact Or.inl h
  | cons hd tl ih =>
    intro best minAng o h
    rw [select_best_aux] at h
    split at h
    · rcases ih _ _ _ h with h1 | h1
      · exact Or.inr (by simp [Option.some.inj h1])
      · exact Or.inr (List.mem_cons_of_mem hd h1)
    · rcases ih _ _ _ h with h1 | h1
      · exact Or.inl h1
      · exact Or.inr (List.mem_cons_of_mem hd h1)

/-- The selected object is one of the visible candidates. -/
lemma select_best_mem {b : ℚ} {l : List Sighted} {o : Sighted}
    (h : select_best_celestial_object b l = some o) : o ∈ l := by
  rcases select_best_aux_mem b l none 360 o h with h1 | h1
  · exact absurd h1 (by simp)
  · exact h1

/-- Shape of a continuing planner step: the new state appends one waypoint
whose reference object was selected from the current visible list, and pushes
its name onto `used_objects`. -/
lemma navigation_step_next (g : GeoModel) (catalog : List CelestialObject)
    (now step_size_km : ℚ) (inner_fuel : Nat) (s s' : NavigationState)
    (h : navigation_step g catalog now step_size_km inner_fuel s = .next s') :
    ∃ best final_pos reason,
      best ∈ get_visible_celestial_objects g catalog s.current_position now s.used_objects ∧
      s' = { current_position := final_pos
             target_position := s.target_position
             used_objects := best.obj.name :: s.used_objects
             waypoints := s.waypoints ++ [⟨final_pos, some best.obj, reason, now⟩]
             iteration_count := s.iteration_count + 1 } := by
  simp only [navigation_step] at h
  split at h
  · exact absurd h (by simp)
  · split at h
    · exact absurd h (by simp)
    · rcases hsel : select_best_celestial_object
          (g.bearing s.current_position s.target_position)
          (get_visible_celestial_objects g catalog s.current_position now s.used_objects)
        with _ | best
      · rw [hsel] at h
        exact absurd h (by simp)
      · rw [hsel] at h
        dsimp only at h
        rcases hfol : follow_celestial_object g best now s.current_position
            s.target_position step_size_km inner_fuel with _ | pr
        · rw [hfol] at h
          exact absurd h (by simp)
        · obtain ⟨final_pos, reason⟩ := pr
          rw [hfol] at h
          dsimp only at h
          obtain rfl := (NavStep.next.inj h).symm
          exact ⟨best, final_pos, reason, select_best_mem hsel, rfl⟩

/-- A `done` planner step appends exactly the final null-reference
`target_reached` waypoint. -/
lemma navigation_step_done (g : GeoModel) (catalog : List CelestialObject)
    (now step_size_km : ℚ) (inner_fuel : Nat) (s : NavigationState) (wps : List Waypoint)
    (h : navigation_step g catalog now step_size_km inner_fuel s = .done wps) :
    wps = s.waypoints ++ [⟨s.current_position, none, .target_reached, now⟩] := by
  simp only [navigation_step] at h
  split at h
  · exact (NavStep.done.inj h).symm
  · split at h
    · exact absurd h (by simp)
    · split at h
      · exact absurd h (by simp)
      · split at h
        · exact absurd h (by simp)
        · exact absurd h (by simp)

/-- Loop invariant behind C5: the waypoints a run appends beyond the entry
state carry pairwise-distinct non-null reference names, all fresh with respect
to the entry `used_objects`. -/
lemma navigation_loop_fresh_names (g : GeoModel) (catalog : List CelestialObject)
    (now step_size_km : ℚ) (inner_fuel : Nat) :
    ∀ (fuel : Nat) (s : NavigationState) (wps : List Waypoint),
      navigation_loop g catalog now step_size_km inner_fuel fuel s =
        some (.returned wps) →
      ∃ sfx, wps = s.waypoints ++ sfx ∧ List.Pairwise distinctRefNames sfx ∧
        ∀ w ∈ sfx, ∀ ob, w.reference_object = some ob → ob.name ∉ s.used_objects := by
  intro fuel
  induction fuel with
  | zero => intro s wps h; exact absurd h (by simp [navigation_loop])
  | succ n ih =>
    intro s wps h
    rw [navigation_loop] at h
    rcases hstep : navigation_step g catalog now step_size_km inner_fuel s with
      wps' | e | s' | _
    · rw [hstep] at h
      obtain rfl : wps' = wps := by simpa using h
      obtain rfl := navigation_step_done g catalog now step_size_km inner_fuel s _ hstep
      refine ⟨[⟨s.current_position, none, .target_reached, now⟩], rfl, by simp, ?_⟩
      intro w hw ob hob
      obtain rfl : w = ⟨s.current_position, none, .target_reached, now⟩ := by simpa using hw
      exact absurd hob (by simp)
    · rw [hstep] at h
      exact absurd h (by simp)
    · rw [hstep] at h
      dsimp only at h
      obtain ⟨best, final_pos, reason, hbest, rfl⟩ :=
        navigation_step_next g catalog now step_size_km inner_fuel s s' hstep
      obtain ⟨sfx', heq, hpw, hfresh⟩ := ih _ wps h
      refine ⟨⟨final_pos, some best.obj, reason, now⟩ :: sfx', by simpa using heq, ?_, ?_⟩
      · refine List.pairwise_cons.mpr ⟨?_, hpw⟩
        intro w hw o₁ o₂ ho₁ ho₂
        obtain rfl : best.obj = o₁ := by simpa using ho₁
        have := hfresh w hw o₂ ho₂
        simp only [List.mem_cons, not_or] at this
        exact fun hne => this.1 hne.symm
      · intro w hw ob hob
        rcases List.mem_cons.mp hw with rfl | hw
        · obtain rfl : best.obj = ob := by simpa using hob
          exact mem_get_visible_not_used hbest
        · have := hfresh w hw ob hob
          simp only [List.mem_cons, not_or] at this
          exact this.2
    · rw [hstep] at h
      exact absurd h (by simp)

/-- C5: within a run, `used_objects` only grows — each continuing planner step
extends it, and the appended waypoint's non-null reference name is already a
member of the updated set before the next iteration; consequently, in every
returned waypoint list the non-null reference names are pairwise distinct (the
trailing `target_reached` entry has a null reference, so the pairwise
condition is vacuous for it). -/
theorem C5_used_objects (g : GeoModel) (catalog : List CelestialObject)
    (now step_size_km : ℚ) (inner_fuel : Nat) :
    (∀ s s', navigation_step g catalog now step_size_km inner_fuel s = .next s' →
      s.used_objects ⊆ s'.used_objects ∧
      ∃ w, s'.waypoints = s.waypoints ++ [w] ∧
        ∃ ob, w.reference_object = some ob ∧ ob.name ∈ s'.used_objects)
    ∧ ∀ start_position target_position max_iterations wps,
        navigate_by_celestial_objects g catalog now start_position target_position
          max_iterations step_size_km inner_fuel = some (.returned wps) →
        List.Pairwise distinctRefNames wps := by
  constructor
  · intro s s' h
    obtain ⟨best, final_pos, reason, _, rfl⟩ :=
      navigation_step_next g catalog now step_size_km inner_fuel s s' h
    refine ⟨List.subset_cons_self _ _, ⟨final_pos, some best.obj, reason, now⟩, rfl,
      best.obj, rfl, List.mem_cons_self _ _⟩
  · intro start_position target_position max_iterations wps h
    obtain ⟨sfx, heq, hpw, _⟩ := navigation_loop_fresh_names g catalog now step_size_km
      inner_fuel max_iterations ⟨start_position, target_position, [], [], 0⟩ wps h
    simpa [heq] using hpw

/-- On a kernel where a step never changes the position, the object never
sets, and the distance to target stays at or above the step size, no pass of
the leg loop ever returns. -/
lemma follow_loop_stuck (g : GeoModel) (obj : CelestialObject) (now : ℚ)
    (start target : Position) (step : ℚ)
    (hmove : ∀ pos az st, g.move pos az st = pos)
    (halt : ∀ o pos t, 0 < (g.horiz o pos t).2)
    (hfar : ¬ g.dist start target < step) :
    ∀ (fuel : Nat) (az : ℚ) (cp : Position),
      follow_loop g obj now target step fuel
        ⟨start, az, g.dist start target, cp, g.dist start target⟩ = none := by
  intro fuel
  induction fuel with
  | zero => intro az cp; rfl
  | succ n ih =>
    intro az cp
    rw [follow_loop]
    have hstep : follow_step g obj now target step
        ⟨start, az, g.dist start target, cp, g.dist start target⟩ =
        .inr ⟨start, (g.horiz obj start now).1, g.dist start target, cp,
          g.dist start target⟩ := by
      simp only [follow_step, hmove]
      rw [if_neg (not_le.mpr (halt obj start now))]
      rw [if_neg (lt_irrefl (g.dist start target))]
      rw [if_neg hfar]
      simp
    rw [hstep]
    exact ih (g.horiz obj start now).1 cp

/-- C6 (amended): `follow_celestial_object` has no internal step ceiling and
no distinct internal-failure outcome: its only exits are the three stop
reasons, and on pathological geometry — every step returns to the same
position with the object still up and the target at or beyond one step — the
loop never returns, whatever bound `fuel` is allowed (modelled: the fuelled
loop yields `none` for every fuel). -/
theorem C6_no_step_ceiling (g : GeoModel) (ref : Sighted) (now : ℚ)
    (start target : Position) (step : ℚ) (fuel : Nat)
    (hmove : ∀ pos az st, g.move pos az st = pos)
    (halt : ∀ o pos t, 0 < (g.horiz o pos t).2)
    (hfar : ¬ g.dist start target < step) :
    follow_celestial_object g ref now start target step fuel = none := by
  unfold follow_celestial_object
  exact follow_loop_stuck g ref.obj now start target step hmove halt hfar fuel
    ref.azimuth start

/-- C6 witness: `stuckModel` satisfies the three pathology hypotheses, and the
leg loop on it returns nothing within 1000 steps. -/
theorem C6_witness :
    (∀ pos az st, stuckModel.move pos az st = pos)
    ∧ (∀ o pos t, 0 < (stuckModel.horiz o pos t).2)
    ∧ ¬ stuckModel.dist ⟨0,0,0⟩ ⟨1,0,0⟩ < 10
    ∧ follow_celestial_object stuckModel ⟨starA, 0, 10⟩ 0 ⟨0,0,0⟩ ⟨1,0,0⟩ 10 1000 = none :=
  ⟨fun _ _ _ => rfl, fun _ _ _ => by norm_num [stuckModel], by norm_num [stuckModel],
    C6_no_step_ceiling stuckModel ⟨starA, 0, 10⟩ 0 ⟨0,0,0⟩ ⟨1,0,0⟩ 10 1000
      (fun _ _ _ => rfl) (fun _ _ _ => by norm_num [stuckModel])
      (by norm_num [stuckModel])⟩

/-- C6 counterexample: a concrete geometry on which the leg loop of the source
has not terminated after 1000 passes (and, by `follow_loop_stuck`, never
does); the loop offers no step ceiling and no internal-failure result that the
claim asserts. -/
theorem C6_counterexample :
    follow_celestial_object stuckModel ⟨starA, 0, 10⟩ 0 ⟨0,0,0⟩ ⟨1,0,0⟩ 10 1000 = none := by
  unfold follow_celestial_object
  exact follow_loop_stuck stuckModel starA 0 ⟨0,0,0⟩ ⟨1,0,0⟩ 10 (fun _ _ _ => rfl)
    (fun _ _ _ => by norm_num [stuckModel]) (by norm_num [stuckModel]) 1000 0 ⟨0,0,0⟩

/-- Degree-radian round trip. -/
lemma radiansR_degreesR (x : ℝ) : radiansR (degreesR x) = x := by
  unfold radiansR degreesR
  field_simp

/-- Half-angle identity for the sine, in the form the haversine uses. -/
lemma sin_half_sq (x : ℝ) : Real.sin (x / 2) ^ 2 = (1 - Real.cos x) / 2 := by
  have h1 : Real.sin (x / 2) ^ 2 = 1 - Real.cos (x / 2) ^ 2 := Real.sin_sq (x / 2)
  rw [h1, Real.cos_sq (x / 2), show 2 * (x / 2) = x by ring]
  ring

/-- The arctangent of the origin is zero, as in library `atan2`
conventions. -/
lemma atan2_zero_zero : atan2 0 0 = 0 := by
  unfold atan2
  norm_num [Complex.arg_zero]

/-- `atan2` inverts the (cosine, sine) pair on `(-π, π]`. -/
lemma atan2_sin_cos {t : ℝ} (h1 : -Real.pi < t) (h2 : t ≤ Real.pi) :
    atan2 (Real.sin t) (Real.cos t) = t := by
  unfold atan2
  rw [Complex.ofReal_cos, Complex.ofReal_sin]
  exact Complex.arg_cos_add_sin_mul_I ⟨h1, h2⟩

/-- Cosine of `atan2`. -/
lemma cos_atan2 (y x : ℝ) (h : ¬(x = 0 ∧ y = 0)) :
    Real.cos (atan2 y x) = x / Real.sqrt (x ^ 2 + y ^ 2) := by
  unfold atan2
  have hz : (↑x + ↑y * Complex.I : ℂ) ≠ 0 := by
    simp only [ne_eq, Complex.ext_iff, Complex.add_re, Complex.ofReal_re, Complex.mul_re,
      Complex.ofReal_im, Complex.I_re, Complex.I_im, Complex.add_im, Complex.mul_im,
      Complex.zero_re, Complex.zero_im]
    intro hc
    exact h ⟨by linarith [hc.1], by linarith [hc.2]⟩
  rw [Complex.cos_arg hz, Complex.abs_add_mul_I]
  congr 1
  simp

/-- The combination `sin x cos y + cos x sin y cos z` lies in `[-1, 1]` for
exact trigonometry (it is an inner product of unit vectors). -/
lemma abs_cos_mix_le (x y z : ℝ) :
    |Real.sin x * Real.cos y + Real.cos x * Real.sin y * Real.cos z| ≤ 1 := by
  have hx := Real.sin_sq_add_cos_sq x
  have hy := Real.sin_sq_add_cos_sq y
  have hz := Real.sin_sq_add_cos_sq z
  have key : (Real.sin x * Real.cos y + Real.cos x * Real.sin y * Real.cos z) ^ 2 +
      (Real.cos x * Real.cos y - Real.sin x * Real.sin y * Real.cos z) ^ 2 +
      (Real.sin y * Real.sin z) ^ 2 = 1 := by
    linear_combination (Real.cos y ^ 2 + Real.sin y ^ 2 * Real.cos z ^ 2) * hx +
      Real.sin y ^ 2 * hz + hy
  have hsq : (Real.sin x * Real.cos y + Real.cos x * Real.sin y * Real.cos z) ^ 2 ≤ 1 := by
    nlinarith [sq_nonneg (Real.cos x * Real.cos y - Real.sin x * Real.sin y * Real.cos z),
      sq_nonneg (Real.sin y * Real.sin z)]
  rw [abs_le]
  constructor <;>
    nlinarith [sq_nonneg (Real.sin x * Real.cos y + Real.cos x * Real.sin y * Real.cos z - 1),
      sq_nonneg (Real.sin x * Real.cos y + Real.cos x * Real.sin y * Real.cos z + 1)]

/-- Core spherical-trigonometry identity behind C7: the haversine quantity of
the point reached by the direct-geodesic formulas equals
`(1 - cos(angular distance)) / 2` exactly. -/
lemma hav_core (φ1 θ δ : ℝ) (hcos1 : 0 ≤ Real.cos φ1) :
    Real.sin ((Real.arcsin (Real.sin φ1 * Real.cos δ + Real.cos φ1 * Real.sin δ * Real.cos θ)
        - φ1) / 2) ^ 2 +
      Real.cos φ1 *
        Real.cos (Real.arcsin
          (Real.sin φ1 * Real.cos δ + Real.cos φ1 * Real.sin δ * Real.cos θ)) *
        Real.sin (atan2 (Real.sin θ * Real.sin δ * Real.cos φ1)
          (Real.cos δ - Real.sin φ1 *
            (Real.sin φ1 * Real.cos δ + Real.cos φ1 * Real.sin δ * Real.cos θ)) / 2) ^ 2 =
      (1 - Real.cos δ) / 2 := by
  set S := Real.sin φ1 * Real.cos δ + Real.cos φ1 * Real.sin δ * Real.cos θ with hSdef
  set X := Real.cos δ - Real.sin φ1 * S with hXdef
  set Y := Real.sin θ * Real.sin δ * Real.cos φ1 with hYdef
  have hS' := abs_le.mp (abs_cos_mix_le φ1 δ θ)
  rw [← hSdef] at hS'
  have hsin2 : Real.sin (Real.arcsin S) = S := Real.sin_arcsin hS'.1 hS'.2
  have hcos2 : Real.cos (Real.arcsin S) = Real.sqrt (1 - S ^ 2) := Real.cos_arcsin S
  have hcos2nn : 0 ≤ Real.cos (Real.arcsin S) := Real.cos_arcsin_nonneg S
  have h1mS : 0 ≤ 1 - S ^ 2 := by nlinarith [hS'.1, hS'.2]
  have h1 := Real.sin_sq_add_cos_sq φ1
  have h2 := Real.sin_sq_add_cos_sq δ
  have h3 := Real.sin_sq_add_cos_sq θ
  have key1 : X ^ 2 + Y ^ 2 = (Real.cos φ1 * Real.cos (Real.arcsin S)) ^ 2 := by
    rw [hcos2, mul_pow (Real.cos φ1) (Real.sqrt (1 - S ^ 2)) 2, Real.sq_sqrt h1mS,
      hXdef, hYdef, hSdef]
    linear_combination ((Real.sin φ1 * Real.cos δ + Real.cos φ1 * Real.sin δ * Real.cos θ) ^ 2
        - Real.cos δ ^ 2) * h1 + Real.cos φ1 ^ 2 * h2 +
      Real.cos φ1 ^ 2 * Real.sin δ ^ 2 * h3
  have key2 : Real.cos φ1 * Real.cos (Real.arcsin S) * Real.cos (atan2 Y X) = X := by
    by_cases hxy : X = 0 ∧ Y = 0
    · obtain ⟨hx0, hy0⟩ := hxy
      have h0 : (Real.cos φ1 * Real.cos (Real.arcsin S)) ^ 2 = 0 := by
        rw [← key1, hx0, hy0]
        ring
      have h0' : Real.cos φ1 * Real.cos (Real.arcsin S) = 0 :=
        pow_eq_zero_iff two_ne_zero |>.mp h0
      rw [hx0, hy0, atan2_zero_zero, Real.cos_zero, mul_one, h0']
    · rw [cos_atan2 Y X hxy, key1, Real.sqrt_sq (mul_nonneg hcos1 hcos2nn)]
      have hne : Real.cos φ1 * Real.cos (Real.arcsin S) ≠ 0 := by
        intro h0
        apply hxy
        have hXY : X ^ 2 + Y ^ 2 = 0 := by rw [key1, h0]; ring
        constructor
        · have : X ^ 2 = 0 := by nlinarith [sq_nonneg X, sq_nonneg Y]
          exact pow_eq_zero_iff two_ne_zero |>.mp this
        · have : Y ^ 2 = 0 := by nlinarith [sq_nonneg X, sq_nonneg Y]
          exact pow_eq_zero_iff two_ne_zero |>.mp this
      field_simp
  rw [sin_half_sq, sin_half_sq, Real.cos_sub, hsin2]
  linear_combination (-1/2 : ℝ) * key2 + (-1/2 : ℝ) * hXdef

/-- The haversine quantity of a projected point depends only on the projection
distance. -/
lemma hav_a_move (p : PositionR) (b d : ℝ) (hlat : |p.latitude| ≤ 90) :
    hav_a p (move_in_direction p b d) = (1 - Real.cos (d / 6371)) / 2 := by
  have hφ1 : |radiansR p.latitude| ≤ Real.pi / 2 := by
    unfold radiansR
    rw [abs_mul, abs_of_pos (show (0:ℝ) < Real.pi / 180 by positivity)]
    calc |p.latitude| * (Real.pi / 180) ≤ 90 * (Real.pi / 180) :=
          mul_le_mul_of_nonneg_right hlat (by positivity)
      _ = Real.pi / 2 := by ring
  have hφ1' := abs_le.mp hφ1
  have hcos1 : 0 ≤ Real.cos (radiansR p.latitude) :=
    Real.cos_nonneg_of_mem_Icc ⟨hφ1'.1, hφ1'.2⟩
  have hS' := abs_le.mp (abs_cos_mix_le (radiansR p.latitude) (d / 6371) (radiansR b))
  unfold hav_a move_in_direction
  dsimp only
  rw [radiansR_degreesR, radiansR_degreesR]
  unfold moveLon moveLat
  rw [Real.sin_arcsin hS'.1 hS'.2, add_sub_cancel_left]
  exact hav_core (radiansR p.latitude) (radiansR b) (d / 6371) hcos1

/-- C7: the round trip `distance(p, move(p, bearing, d)) = d` holds exactly
(hence within any small tolerance) for every position with a valid latitude,
every bearing, and every distance up to a few thousand kilometers (9000 km
keeps the central angle below π/2). -/
theorem C7_roundtrip (p : PositionR) (b d : ℝ) (hlat : |p.latitude| ≤ 90)
    (hd0 : 0 ≤ d) (hd1 : d ≤ 9000) :
    haversine_distance p (move_in_direction p b d) = d := by
  have hπ := Real.pi_gt_d6
  have hδ0 : 0 ≤ d / 6371 := by positivity
  have hδ1 : d / 6371 < Real.pi / 2 := by nlinarith
  unfold haversine_distance
  rw [hav_a_move p b d hlat]
  rw [show (1 - Real.cos (d / 6371)) / 2 = Real.sin (d / 6371 / 2) ^ 2 from
    (sin_half_sq _).symm]
  rw [show 1 - Real.sin (d / 6371 / 2) ^ 2 = Real.cos (d / 6371 / 2) ^ 2 from by
    have := Real.sin_sq_add_cos_sq (d / 6371 / 2)
    linarith]
  rw [Real.sqrt_sq (Real.sin_nonneg_of_nonneg_of_le_pi (by positivity) (by nlinarith))]
  rw [Real.sqrt_sq (Real.cos_nonneg_of_mem_Icc ⟨by nlinarith, by nlinarith⟩)]
  rw [atan2_sin_cos (by nlinarith) (by nlinarith)]
  ring

/-- C7 witness: the round trip at the origin with distance zero. -/
theorem C7_witness :
    |(0:ℝ)| ≤ 90 ∧ (0:ℝ) ≤ 0 ∧ (0:ℝ) ≤ 9000 ∧
      haversine_distance ⟨0, 0, 0⟩ (move_in_direction ⟨0, 0, 0⟩ 0 0) = 0 :=
  ⟨by norm_num, le_refl 0, by norm_num,
    C7_roundtrip ⟨0, 0, 0⟩ 0 0 (by norm_num) (le_refl 0) (by norm_num)⟩

/-- The combination `sin x sin y + cos x cos y cos z` lies in `[-1, 1]` for
exact trigonometry. -/
lemma abs_sin_mix_le (x y z : ℝ) :
    |Real.sin x * Real.sin y + Real.cos x * Real.cos y * Real.cos z| ≤ 1 := by
  have hx := Real.sin_sq_add_cos_sq x
  have hy := Real.sin_sq_add_cos_sq y
  have hz := Real.sin_sq_add_cos_sq z
  have key : (Real.sin x * Real.sin y + Real.cos x * Real.cos y * Real.cos z) ^ 2 +
      (Real.cos x * Real.sin y - Real.sin x * Real.cos y * Real.cos z) ^ 2 +
      (Real.cos y * Real.sin z) ^ 2 = 1 := by
    linear_combination (Real.sin y ^ 2 + Real.cos y ^ 2 * Real.cos z ^ 2) * hx +
      Real.cos y ^ 2 * hz + hy
  have hsq : (Real.sin x * Real.sin y + Real.cos x * Real.cos y * Real.cos z) ^ 2 ≤ 1 := by
    nlinarith [sq_nonneg (Real.cos x * Real.sin y - Real.sin x * Real.cos y * Real.cos z),
      sq_nonneg (Real.cos y * Real.sin z)]
  rw [abs_le]
  constructor <;>
    nlinarith [sq_nonneg (Real.sin x * Real.sin y + Real.cos x * Real.cos y * Real.cos z - 1),
      sq_nonneg (Real.sin x * Real.sin y + Real.cos x * Real.cos y * Real.cos z + 1)]

/-- C8 (amended): only the azimuth cosine is clamped — for every sine/cosine
implementation (exact or rounded) the value passed to `acos` lies in `[-1,1]`
by construction of the clamp, while the altitude argument `sin_alt` is passed
to `asin` unclamped; with exact trigonometry that argument happens to lie in
`[-1,1]`, but the source applies no clamp to it. -/
theorem C8_only_azimuth_cosine_clamped : ∀ (t : RoundedTrig) (lst ra dec lat : ℝ),
    (-1 ≤ cos_az_clamped t lst ra dec lat ∧ cos_az_clamped t lst ra dec lat ≤ 1)
    ∧ (-1 ≤ sin_alt_arg exactTrig lst ra dec lat ∧
        sin_alt_arg exactTrig lst ra dec lat ≤ 1) := by
  intro t lst ra dec lat
  refine ⟨⟨le_max_left _ _, ?_⟩, ?_⟩
  · exact max_le (by norm_num) (min_le_left _ _)
  · have := abs_sin_mix_le (radiansR dec) (radiansR lat) (radiansR ((lst - ra) * 15))
    rw [abs_le] at this
    exact ⟨this.1, this.2⟩

/-- C8 counterexample: a sine/cosine implementation within `2 ^ (-40)` of the
exact one — rounding-sized error — drives the unclamped `sin_alt` above 1, so
the `asin` call of the transform receives an out-of-domain argument; the
transform's altitude is exactly `asin` of that unclamped value. -/
theorem C8_counterexample :
    (∀ x : ℝ, |roundedTrigExample.cos x - Real.cos x| ≤ 1 / 2 ^ 40)
    ∧ (∀ x : ℝ, roundedTrigExample.sin x = Real.sin x)
    ∧ 1 < sin_alt_arg roundedTrigExample 0 0 0 0
    ∧ (calculate_horizontal_coordinates roundedTrigExample 0 0 0 0).2 =
        degreesR (Real.arcsin (sin_alt_arg roundedTrigExample 0 0 0 0)) := by
  refine ⟨fun x => ?_, fun x => rfl, ?_, rfl⟩
  · simp only [roundedTrigExample]
    rw [show Real.cos x + 1 / 2 ^ 40 - Real.cos x = 1 / 2 ^ 40 by ring,
      abs_of_nonneg (by norm_num)]
  · have h0 : radiansR 0 = 0 := by norm_num [radiansR]
    norm_num [sin_alt_arg, roundedTrigExample, h0, Real.cos_zero, Real.sin_zero]

/-- C9: the catalog filter is a total function into lists — its output is
empty exactly when no catalog object qualifies (already used, below the
horizon, or too dim), and it signals nothing else; it is the planner step
that turns an empty candidate list (when the target is not yet reached) into
the `noVisibleObjects` failure. -/
theorem C9_empty_is_planner_failure (g : GeoModel) (catalog : List CelestialObject)
    (now step_size_km : ℚ) (inner_fuel : Nat) (s : NavigationState) :
    (get_visible_celestial_objects g catalog s.current_position now s.used_objects = [] ↔
      ∀ obj ∈ catalog, obj.name ∈ s.used_objects ∨
        ¬(0 < (g.horiz obj s.current_position now).2 ∧ obj.magnitude < 6))
    ∧ (g.posEq s.current_position s.target_position (1/10) = false →
        get_visible_celestial_objects g catalog s.current_position now s.used_objects = [] →
        navigation_step g catalog now step_size_km inner_fuel s =
          .failed .noVisibleObjects) := by
  constructor
  · rw [get_visible_celestial_objects, List.filterMap_eq_nil_iff]
    constructor
    · intro h obj hobj
      have hf := h obj hobj
      dsimp only at hf
      by_cases hmem : obj.name ∈ s.used_objects
      · exact Or.inl hmem
      · rw [if_neg hmem] at hf
        by_cases hcrit : 0 < (g.horiz obj s.current_position now).2 ∧ obj.magnitude < 6
        · rw [if_pos hcrit] at hf
          exact absurd hf (by simp)
        · exact Or.inr hcrit
    · intro h obj hobj
      dsimp only
      by_cases hmem : obj.name ∈ s.used_objects
      · rw [if_pos hmem]
      · rw [if_neg hmem]
        rcases h obj hobj with hm | hcrit
        · exact absurd hm hmem
        · rw [if_neg hcrit]
  · intro hpe hempty
    unfold navigation_step
    rw [hpe]
    simp [hempty]

/-- A single store action preserves the exclusivity of the two mode flags. -/
lemma applyAction_flags_exclusive (fmt : FPosition → String) (s : StoreState)
    (a : StoreAction) (hs : ¬(s.prioritizeMajor = true ∧ s.planetsOnly = true)) :
    ¬((applyAction fmt s a).prioritizeMajor = true ∧
      (applyAction fmt s a).planetsOnly = true) := by
  cases a <;> simp_all [applyAction]

/-- Folding any action sequence preserves the exclusivity of the two mode
flags. -/
lemma foldl_flags_exclusive (fmt : FPosition → String) :
    ∀ (acts : List StoreAction) (s : StoreState),
      ¬(s.prioritizeMajor = true ∧ s.planetsOnly = true) →
      ¬((acts.foldl (applyAction fmt) s).prioritizeMajor = true ∧
        (acts.foldl (applyAction fmt) s).planetsOnly = true) := by
  intro acts
  induction acts with
  | nil => intro s hs; exact hs
  | cons a rest ih =>
    intro s hs
    exact ih (applyAction fmt s a) (applyAction_flags_exclusive fmt s a hs)

/-- C10: starting from the initial store state, no sequence of store actions
can make `prioritizeMajor` and `planetsOnly` both true —
`setPrioritizeMajor(true)` forces `planetsOnly` to false,
`setPlanetsOnly(true)` forces `prioritizeMajor` to false, and no other action
sets either flag to true. -/
theorem C10_mode_flags_exclusive : ∀ (fmt : FPosition → String) (acts : List StoreAction),
    ¬((runStore fmt acts).prioritizeMajor = true ∧ (runStore fmt acts).planetsOnly = true) := by
  intro fmt acts
  exact foldl_flags_exclusive fmt acts initialStoreState (by simp [initialStoreState])

end StarNav
